import Mathlib

/-!
# connfu: combining an outer and an inner `net.Conn`

A shallow embedding of `connfu.go` and `config_linux.go`.

* An interface value is `none` (the nil interface) or `some v`, where `v` is the
  method set of the dynamic value it holds.
* A method is a state-passing function over a world `W`; a call either panics
  (`Except.error`) or returns its results together with the world after the call.
* A comma-ok type assertion `conn.(I)` is an `Option`: the asserted methods, or `none`.
* The capability bitmask of `flags` is a `uint8` in the source; it is a `Nat` here.
  Only `|` and `&^` with the constants 1, 2, 4 are applied to it, so it never
  leaves the range of a `uint8` and no wrap-around is involved.
-/

namespace connfu

/-! ## Go values -/

/-- Go `error`: nil (`none`) or a non-nil error, identified by its message. -/
abbrev GoError := Option String

/-- Go `[]byte`. -/
abbrev Bytes := List Nat

/-- Go `net.Addr`, identified by its string form. -/
abbrev Addr := String

/-- Go `time.Time`, as an instant. -/
abbrev Time := Int

/-- Go `io.Reader` argument, identified by a handle into the world (0 for nil). -/
abbrev Reader := Nat

/-- Go `io.Writer` argument, identified by a handle into the world (0 for nil). -/
abbrev Writer := Nat

/-- A Go method with argument `A` and results `R` acting on the world `W`:
the call panics with a message, or returns results and the new world. -/
abbrev Method (W A R : Type) := A → W → Except String (R × W)

/-- The method set of a non-nil dynamic value stored in a `net.Conn` interface:
the eight methods of `net.Conn`, and the three optional ones when the dynamic
type has them (`io.ReaderFrom`, `io.WriterTo`, `CloseWrite() error`). -/
structure ConnValue (W : Type) where
  Read : Method W Bytes (Int × GoError)
  Write : Method W Bytes (Int × GoError)
  Close : Method W Unit GoError
  LocalAddr : Method W Unit Addr
  RemoteAddr : Method W Unit Addr
  SetDeadline : Method W Time GoError
  SetReadDeadline : Method W Time GoError
  SetWriteDeadline : Method W Time GoError
  ReadFrom : Option (Method W Reader (Int × GoError))
  WriteTo : Option (Method W Writer (Int × GoError))
  CloseWrite : Option (Method W Unit GoError)

/-- A value of interface type `net.Conn`: nil, or a dynamic value. -/
abbrev Conn (W : Type) := Option (ConnValue W)

variable {W : Type}

/-- The panic of a method call through a nil interface. -/
def nilDereference : String := "invalid memory address or nil pointer dereference"

/-- The panic of a forced type assertion that fails. -/
def interfaceConversion : String := "interface conversion"

/-- Calling a `net.Conn` method `m` on the interface value `c`: a nil interface panics. -/
def call {A R : Type} (c : Conn W) (m : ConnValue W → Method W A R) : Method W A R :=
  fun a w =>
    match c with
    | none => Except.error nilDereference
    | some v => m v a w

/-- Comma-ok assertion `conn.(io.ReaderFrom)`. -/
def assertReaderFrom (conn : Conn W) : Option (Method W Reader (Int × GoError)) :=
  match conn with
  | none => none
  | some v => v.ReadFrom

/-- Comma-ok assertion `conn.(io.WriterTo)`. -/
def assertWriterTo (conn : Conn W) : Option (Method W Writer (Int × GoError)) :=
  match conn with
  | none => none
  | some v => v.WriteTo

/-- Comma-ok assertion `conn.(_closeWriter)`. -/
def assertCloseWriter (conn : Conn W) : Option (Method W Unit GoError) :=
  match conn with
  | none => none
  | some v => v.CloseWrite

/-! ## The mixins (connfu.go, lines 8-34) -/

/-- Go `readFromMixin struct{ net.Conn }`. -/
structure readFromMixin (W : Type) where
  Conn : Conn W

/-- Go `writeToMixin struct{ net.Conn }`. -/
structure writeToMixin (W : Type) where
  Conn : Conn W

/-- Go `closeWriteMixin struct{ net.Conn }`. -/
structure closeWriteMixin (W : Type) where
  Conn : Conn W

/-- Go `rf.Conn.(io.ReaderFrom).ReadFrom(r)`: a forced type assertion, then the call. -/
def readFromMixin.ReadFrom (rf : readFromMixin W) : Method W Reader (Int × GoError) :=
  fun r w =>
    match assertReaderFrom rf.Conn with
    | some f => f r w
    | none => Except.error interfaceConversion

/-- Go `wt.Conn.(io.WriterTo).WriteTo(w)`: a forced type assertion, then the call. -/
def writeToMixin.WriteTo (wt : writeToMixin W) : Method W Writer (Int × GoError) :=
  fun x w =>
    match assertWriterTo wt.Conn with
    | some f => f x w
    | none => Except.error interfaceConversion

/-- Go `cw.Conn.(_closeWriter).CloseWrite()`: a forced type assertion, then the call. -/
def closeWriteMixin.CloseWrite (cw : closeWriteMixin W) : Method W Unit GoError :=
  fun u w =>
    match assertCloseWriter cw.Conn with
    | some f => f u w
    | none => Except.error interfaceConversion

/-! ## Capability flags (connfu.go, lines 36-54) -/

/-- Constant `readerFrom = 1 << iota` with iota = 0. -/
def readerFrom : Nat := 1 <<< 0

/-- Constant `writerTo`, `1 << iota` with iota = 1. -/
def writerTo : Nat := 1 <<< 1

/-- Constant `closeWriter`, `1 << iota` with iota = 2. -/
def closeWriter : Nat := 1 <<< 2

/-- Go `x &^ y` (bit clear): the bits of `x` that are not set in `y`. -/
def bitClear (x y : Nat) : Nat := x ^^^ (x &&& y)

/-- Go `flags(conn)`: one bit per optional interface the connection implements. -/
def flags (conn : Conn W) : Nat :=
  let f := 0
  let f := if (assertReaderFrom conn).isSome then f ||| readerFrom else f
  let f := if (assertWriterTo conn).isSome then f ||| writerTo else f
  let f := if (assertCloseWriter conn).isSome then f ||| closeWriter else f
  f

/-! ## Configuration -/

/-- Modelled from the spec: the declaration of type `Config` is not among the
sources. It is the policy with one boolean enable flag for each of the two gated
capabilities, under the field names that `CombineWithConfig` and `DefaultConfig` use. -/
structure Config where
  UseReaderFrom : Bool
  UseWriterTo : Bool

/-- Go `DefaultConfig()` of config_linux.go. -/
def DefaultConfig : Config :=
  { UseReaderFrom := true
    UseWriterTo := false }

/-! ## Combining (connfu.go, lines 72-153) -/

/-- The eight anonymous struct types that `CombineWithConfig` returns. The field
`Conn` is the embedded `net.Conn`; the other fields are the embedded
`io.ReaderFrom`, `io.WriterTo` and `_closeWriter`, each holding a mixin. -/
inductive Combined (W : Type) where
  | plain (Conn : Conn W)
  | withR (Conn : Conn W) (ReaderFrom : readFromMixin W)
  | withW (Conn : Conn W) (WriterTo : writeToMixin W)
  | withC (Conn : Conn W) (closeWriter : closeWriteMixin W)
  | withRW (Conn : Conn W) (ReaderFrom : readFromMixin W) (WriterTo : writeToMixin W)
  | withRC (Conn : Conn W) (ReaderFrom : readFromMixin W) (closeWriter : closeWriteMixin W)
  | withWC (Conn : Conn W) (WriterTo : writeToMixin W) (closeWriter : closeWriteMixin W)
  | withRWC (Conn : Conn W) (ReaderFrom : readFromMixin W) (WriterTo : writeToMixin W)
      (closeWriter : closeWriteMixin W)

/-- The methods promoted from an embedded field of interface type `net.Conn`:
exactly the eight methods of `net.Conn`, each a call through the embedded
interface value. Methods of the dynamic value beyond `net.Conn` are not promoted. -/
def promoted (outer : Conn W) : ConnValue W :=
  { Read := call outer ConnValue.Read
    Write := call outer ConnValue.Write
    Close := call outer ConnValue.Close
    LocalAddr := call outer ConnValue.LocalAddr
    RemoteAddr := call outer ConnValue.RemoteAddr
    SetDeadline := call outer ConnValue.SetDeadline
    SetReadDeadline := call outer ConnValue.SetReadDeadline
    SetWriteDeadline := call outer ConnValue.SetWriteDeadline
    ReadFrom := none
    WriteTo := none
    CloseWrite := none }

/-- The method set of each of the eight struct types: the methods promoted from
the embedded `net.Conn`, and the one method of each further embedded interface. -/
def Combined.methods : Combined W → ConnValue W
  | .plain c => promoted c
  | .withR c rf => { promoted c with ReadFrom := some rf.ReadFrom }
  | .withW c wt => { promoted c with WriteTo := some wt.WriteTo }
  | .withC c cw => { promoted c with CloseWrite := some cw.CloseWrite }
  | .withRW c rf wt => { promoted c with ReadFrom := some rf.ReadFrom, WriteTo := some wt.WriteTo }
  | .withRC c rf cw =>
      { promoted c with ReadFrom := some rf.ReadFrom, CloseWrite := some cw.CloseWrite }
  | .withWC c wt cw =>
      { promoted c with WriteTo := some wt.WriteTo, CloseWrite := some cw.CloseWrite }
  | .withRWC c rf wt cw =>
      { promoted c with
        ReadFrom := some rf.ReadFrom, WriteTo := some wt.WriteTo, CloseWrite := some cw.CloseWrite }

/-- A struct value converted to `net.Conn`: a non-nil interface with that method set. -/
def Combined.toConn (s : Combined W) : Conn W := some s.methods

/-- The embedded `io.ReaderFrom` field of the struct, when its type has one. -/
def Combined.ReaderFrom : Combined W → Option (readFromMixin W)
  | .withR _ rf => some rf
  | .withRW _ rf _ => some rf
  | .withRC _ rf _ => some rf
  | .withRWC _ rf _ _ => some rf
  | _ => none

/-- The embedded `io.WriterTo` field of the struct, when its type has one. -/
def Combined.WriterTo : Combined W → Option (writeToMixin W)
  | .withW _ wt => some wt
  | .withRW _ _ wt => some wt
  | .withWC _ wt _ => some wt
  | .withRWC _ _ wt _ => some wt
  | _ => none

/-- The embedded `_closeWriter` field of the struct, when its type has one. -/
def Combined.CloseWriter : Combined W → Option (closeWriteMixin W)
  | .withC _ cw => some cw
  | .withRC _ _ cw => some cw
  | .withWC _ _ cw => some cw
  | .withRWC _ _ _ cw => some cw
  | _ => none

/-- The closure `readFromMixin` of `CombineWithConfig` (lines 78-83). -/
def mkReadFromMixin (outer inner : Conn W) : readFromMixin W :=
  if (assertReaderFrom outer).isSome then { Conn := outer } else { Conn := inner }

/-- The closure `writeToMixin` of `CombineWithConfig` (lines 84-89). -/
def mkWriteToMixin (outer inner : Conn W) : writeToMixin W :=
  if (assertWriterTo outer).isSome then { Conn := outer } else { Conn := inner }

/-- The closure `closeWriteMixin` of `CombineWithConfig` (lines 90-95). -/
def mkCloseWriteMixin (outer inner : Conn W) : closeWriteMixin W :=
  if (assertCloseWriter outer).isSome then { Conn := outer } else { Conn := inner }

/-- The bitmask `CombineWithConfig` switches on (lines 97-103): the flags of
`inner`, with the bits of the capabilities that `cfg` disables cleared. -/
def maskedFlags (inner : Conn W) (cfg : Config) : Nat :=
  let flags := flags inner
  let flags := if !cfg.UseReaderFrom then bitClear flags readerFrom else flags
  let flags := if !cfg.UseWriterTo then bitClear flags writerTo else flags
  flags

/-- The switch of `CombineWithConfig` (lines 105-152) on a bitmask: the struct
value of the first matching case, or `none` for the `default` case. -/
def selectShape (outer inner : Conn W) (flags : Nat) : Option (Combined W) :=
  if flags = 0 then
    some (.plain outer)
  else if flags = readerFrom then
    some (.withR outer (mkReadFromMixin outer inner))
  else if flags = writerTo then
    some (.withW outer (mkWriteToMixin outer inner))
  else if flags = closeWriter then
    some (.withC outer (mkCloseWriteMixin outer inner))
  else if flags = readerFrom ||| writerTo then
    some (.withRW outer (mkReadFromMixin outer inner) (mkWriteToMixin outer inner))
  else if flags = readerFrom ||| closeWriter then
    some (.withRC outer (mkReadFromMixin outer inner) (mkCloseWriteMixin outer inner))
  else if flags = writerTo ||| closeWriter then
    some (.withWC outer (mkWriteToMixin outer inner) (mkCloseWriteMixin outer inner))
  else if flags = readerFrom ||| writerTo ||| closeWriter then
    some (.withRWC outer (mkReadFromMixin outer inner) (mkWriteToMixin outer inner)
      (mkCloseWriteMixin outer inner))
  else
    none

/-- Go `CombineWithConfig(outer, inner, cfg)`: the combined connection, or the
panic of the `default` case of the switch. -/
def CombineWithConfig (outer inner : Conn W) (cfg : Config) : Except String (Conn W) :=
  match selectShape outer inner (maskedFlags inner cfg) with
  | some s => Except.ok s.toConn
  | none => Except.error "unreachable"

/-- Go `Combine(outer, inner)`. -/
def Combine (outer inner : Conn W) : Except String (Conn W) :=
  CombineWithConfig outer inner DefaultConfig

/-! ## Fixtures (connfu_test.go, helper_test.go)

The world of the fixtures is a counter of the calls made so far. -/

/-- The error `testErr` of `TestCombineOverloading`. -/
def testErr : GoError := some "test error"

/-- The address `testAddr` of connfu_test.go. -/
def testAddr : Addr := "testAddr"

/-- Go `testConn{}`: a struct embedding a nil `net.Conn` that overrides
`RemoteAddr`; every other method goes through the nil embedded interface. -/
def testConn : ConnValue Nat :=
  { promoted none with RemoteAddr := fun _ w => Except.ok (testAddr, w + 1) }

/-- Go `nopReaderFrom`. -/
def nopReaderFrom : Method Nat Reader (Int × GoError) := fun _ w => Except.ok ((0, none), w + 1)

/-- Go `nopWriteTo`. -/
def nopWriteTo : Method Nat Writer (Int × GoError) := fun _ w => Except.ok ((0, none), w + 1)

/-- Go `nopCloseWriter`. -/
def nopCloseWriter : Method Nat Unit GoError := fun _ w => Except.ok (none, w + 1)

/-- The overloading `io.ReaderFrom` of `TestCombineOverloading`: returns 42 and `testErr`. -/
def errReaderFrom : Method Nat Reader (Int × GoError) := fun _ w => Except.ok ((42, testErr), w + 1)

/-- The overloading `io.WriterTo` of `TestCombineOverloading`: returns 42 and `testErr`. -/
def errWriteTo : Method Nat Writer (Int × GoError) := fun _ w => Except.ok ((42, testErr), w + 1)

/-- The overloading `CloseWrite` of `TestCombineOverloading`: returns `testErr`. -/
def errCloseWriter : Method Nat Unit GoError := fun _ w => Except.ok (testErr, w + 1)

/-- A struct embedding `net.Conn` and any of the three optional interfaces, as
the test tables build them: its method set. -/
def structConn (c : Conn Nat) (rf : Option (Method Nat Reader (Int × GoError)))
    (wt : Option (Method Nat Writer (Int × GoError))) (cw : Option (Method Nat Unit GoError)) :
    Conn Nat :=
  some { promoted c with ReadFrom := rf, WriteTo := wt, CloseWrite := cw }

/-- The connection `testConn{}` with no optional interface. -/
def connPlain : Conn Nat := some testConn

/-- The test connection with all three optional interfaces, each a no-op. -/
def connRWC : Conn Nat :=
  structConn (some testConn) (some nopReaderFrom) (some nopWriteTo) (some nopCloseWriter)

/-- The test connection with a no-op `io.ReaderFrom` and `io.WriterTo`. -/
def connRW : Conn Nat := structConn (some testConn) (some nopReaderFrom) (some nopWriteTo) none

/-- The test connection with a no-op `io.WriterTo` only. -/
def connW : Conn Nat := structConn (some testConn) none (some nopWriteTo) none

/-- The test connection whose `io.ReaderFrom` returns 42 and `testErr`. -/
def connErrR : Conn Nat := structConn (some testConn) (some errReaderFrom) none none

/-- The test connection with all three optional interfaces, each returning `testErr`. -/
def connErrRWC : Conn Nat :=
  structConn (some testConn) (some errReaderFrom) (some errWriteTo) (some errCloseWriter)

/-- A connection in the style of the test tables, over any world: a struct that
embeds a nil `net.Conn` and a no-op implementation of each optional interface
that is asked for. -/
def capConn (r w c : Bool) : Conn W :=
  some { promoted none with
    ReadFrom := if r then some (fun _ s => Except.ok ((0, none), s)) else none
    WriteTo := if w then some (fun _ s => Except.ok ((0, none), s)) else none
    CloseWrite := if c then some (fun _ s => Except.ok (none, s)) else none }

/-! ## Shared lemmas -/

/-- The value `CombineWithConfig` returns, in closed form: the switch never
falls through, and the struct it picks has the methods promoted from `outer`
and one mixin for each bit of the masked flags of `inner`. -/
theorem CombineWithConfig_ok (outer inner : Conn W) (cfg : Config) :
    CombineWithConfig outer inner cfg = Except.ok (some
      { promoted outer with
        ReadFrom :=
          if (assertReaderFrom inner).isSome && cfg.UseReaderFrom then
            some (mkReadFromMixin outer inner).ReadFrom else none
        WriteTo :=
          if (assertWriterTo inner).isSome && cfg.UseWriterTo then
            some (mkWriteToMixin outer inner).WriteTo else none
        CloseWrite :=
          if (assertCloseWriter inner).isSome then
            some (mkCloseWriteMixin outer inner).CloseWrite else none }) := by
  rcases cfg with ⟨_ | _, _ | _⟩ <;>
    rcases inner with _ | ⟨_, _, _, _, _, _, _, _, _ | _, _ | _, _ | _⟩ <;>
    simp +decide [CombineWithConfig, selectShape, maskedFlags, flags, bitClear, readerFrom,
      writerTo, closeWriter, assertReaderFrom, assertWriterTo, assertCloseWriter, Combined.toConn,
      Combined.methods, promoted]

/-- The masked flags in closed form: one independent decision per capability. -/
theorem maskedFlags_eq (inner : Conn W) (cfg : Config) :
    maskedFlags inner cfg =
      (if (assertReaderFrom inner).isSome && cfg.UseReaderFrom then readerFrom else 0) |||
      (if (assertWriterTo inner).isSome && cfg.UseWriterTo then writerTo else 0) |||
      (if (assertCloseWriter inner).isSome then closeWriter else 0) := by
  rcases cfg with ⟨_ | _, _ | _⟩ <;>
    rcases inner with _ | ⟨_, _, _, _, _, _, _, _, _ | _, _ | _, _ | _⟩ <;>
    simp +decide [maskedFlags, flags, bitClear, readerFrom, writerTo, closeWriter,
      assertReaderFrom, assertWriterTo, assertCloseWriter]

/-- The `ReadFrom` of the mixin that `CombineWithConfig` builds is the `ReadFrom`
of `outer` when `outer` has one. -/
theorem mkReadFromMixin_outer (outer inner : Conn W) (g : Method W Reader (Int × GoError))
    (h : assertReaderFrom outer = some g) : (mkReadFromMixin outer inner).ReadFrom = g := by
  funext r w
  simp [mkReadFromMixin, readFromMixin.ReadFrom, h]

/-- The `ReadFrom` of the mixin is the `ReadFrom` of `inner` when `outer` has none. -/
theorem mkReadFromMixin_inner (outer inner : Conn W) (g : Method W Reader (Int × GoError))
    (ho : assertReaderFrom outer = none) (h : assertReaderFrom inner = some g) :
    (mkReadFromMixin outer inner).ReadFrom = g := by
  funext r w
  simp [mkReadFromMixin, readFromMixin.ReadFrom, ho, h]

/-- The `WriteTo` of the mixin is the `WriteTo` of `outer` when `outer` has one. -/
theorem mkWriteToMixin_outer (outer inner : Conn W) (g : Method W Writer (Int × GoError))
    (h : assertWriterTo outer = some g) : (mkWriteToMixin outer inner).WriteTo = g := by
  funext x w
  simp [mkWriteToMixin, writeToMixin.WriteTo, h]

/-- The `WriteTo` of the mixin is the `WriteTo` of `inner` when `outer` has none. -/
theorem mkWriteToMixin_inner (outer inner : Conn W) (g : Method W Writer (Int × GoError))
    (ho : assertWriterTo outer = none) (h : assertWriterTo inner = some g) :
    (mkWriteToMixin outer inner).WriteTo = g := by
  funext x w
  simp [mkWriteToMixin, writeToMixin.WriteTo, ho, h]

/-- The `CloseWrite` of the mixin is the `CloseWrite` of `outer` when `outer` has one. -/
theorem mkCloseWriteMixin_outer (outer inner : Conn W) (g : Method W Unit GoError)
    (h : assertCloseWriter outer = some g) : (mkCloseWriteMixin outer inner).CloseWrite = g := by
  funext u w
  simp [mkCloseWriteMixin, closeWriteMixin.CloseWrite, h]

/-- The `CloseWrite` of the mixin is the `CloseWrite` of `inner` when `outer` has none. -/
theorem mkCloseWriteMixin_inner (outer inner : Conn W) (g : Method W Unit GoError)
    (ho : assertCloseWriter outer = none) (h : assertCloseWriter inner = some g) :
    (mkCloseWriteMixin outer inner).CloseWrite = g := by
  funext u w
  simp [mkCloseWriteMixin, closeWriteMixin.CloseWrite, ho, h]

/-! ## Exposed capabilities -/

/-- C1: for every outer, inner (nil included) and cfg, `CombineWithConfig` returns a
connection that implements `io.ReaderFrom` iff inner does and `cfg.UseReaderFrom`
is set, `io.WriterTo` iff inner does and `cfg.UseWriterTo` is set, and `CloseWrite`
iff inner does; its flags are the flags of inner with the bits of the disabled
capabilities cleared, which is the bitwise combination of the three decisions. -/
theorem CombineWithConfig_capabilities (outer inner : Conn W) (cfg : Config) :
    ∃ res, CombineWithConfig outer inner cfg = Except.ok res ∧
      (assertReaderFrom res).isSome = ((assertReaderFrom inner).isSome && cfg.UseReaderFrom) ∧
      (assertWriterTo res).isSome = ((assertWriterTo inner).isSome && cfg.UseWriterTo) ∧
      (assertCloseWriter res).isSome = (assertCloseWriter inner).isSome ∧
      flags res =
        (if cfg.UseWriterTo then
          (if cfg.UseReaderFrom then flags inner else bitClear (flags inner) readerFrom)
        else
          bitClear (if cfg.UseReaderFrom then flags inner else bitClear (flags inner) readerFrom)
            writerTo) ∧
      flags res =
        ((if (assertReaderFrom inner).isSome && cfg.UseReaderFrom then readerFrom else 0) |||
          (if (assertWriterTo inner).isSome && cfg.UseWriterTo then writerTo else 0) |||
          (if (assertCloseWriter inner).isSome then closeWriter else 0)) := by
  refine ⟨_, CombineWithConfig_ok outer inner cfg, ?_⟩
  rcases cfg with ⟨_ | _, _ | _⟩ <;>
    rcases inner with _ | ⟨_, _, _, _, _, _, _, _, _ | _, _ | _, _ | _⟩ <;>
    simp +decide [flags, bitClear, readerFrom, writerTo, closeWriter, assertReaderFrom,
      assertWriterTo, assertCloseWriter]

/-- C2: every optional capability that the result of `CombineWithConfig` exposes
returns, on every argument and in every world, exactly what the implementation of
outer returns when outer implements the capability, and otherwise exactly what
the implementation of inner returns: count, error, panic and world alike. -/
theorem CombineWithConfig_delegates (outer inner : Conn W) (cfg : Config) (res : Conn W)
    (h : CombineWithConfig outer inner cfg = Except.ok res) :
    (∀ f, assertReaderFrom res = some f →
      ∃ g, (if (assertReaderFrom outer).isSome then assertReaderFrom outer
            else assertReaderFrom inner) = some g ∧ ∀ r w, f r w = g r w) ∧
    (∀ f, assertWriterTo res = some f →
      ∃ g, (if (assertWriterTo outer).isSome then assertWriterTo outer
            else assertWriterTo inner) = some g ∧ ∀ x w, f x w = g x w) ∧
    (∀ f, assertCloseWriter res = some f →
      ∃ g, (if (assertCloseWriter outer).isSome then assertCloseWriter outer
            else assertCloseWriter inner) = some g ∧ ∀ u w, f u w = g u w) := by
  rw [CombineWithConfig_ok] at h
  cases h
  refine ⟨?_, ?_, ?_⟩
  · intro f hf
    simp only [assertReaderFrom] at hf
    split at hf
    · rename_i hc
      simp only [Bool.and_eq_true] at hc
      cases hf
      cases ho : assertReaderFrom outer with
      | some g => exact ⟨g, by simp, fun r w => by rw [mkReadFromMixin_outer outer inner g ho]⟩
      | none =>
        obtain ⟨g, hg⟩ := Option.isSome_iff_exists.mp hc.1
        change assertReaderFrom inner = some g at hg
        exact ⟨g, by simp [hg],
          fun r w => by rw [mkReadFromMixin_inner outer inner g ho hg]⟩
    · cases hf
  · intro f hf
    simp only [assertWriterTo] at hf
    split at hf
    · rename_i hc
      simp only [Bool.and_eq_true] at hc
      cases hf
      cases ho : assertWriterTo outer with
      | some g => exact ⟨g, by simp, fun x w => by rw [mkWriteToMixin_outer outer inner g ho]⟩
      | none =>
        obtain ⟨g, hg⟩ := Option.isSome_iff_exists.mp hc.1
        change assertWriterTo inner = some g at hg
        exact ⟨g, by simp [hg],
          fun x w => by rw [mkWriteToMixin_inner outer inner g ho hg]⟩
    · cases hf
  · intro f hf
    simp only [assertCloseWriter] at hf
    split at hf
    · rename_i hc
      cases hf
      cases ho : assertCloseWriter outer with
      | some g => exact ⟨g, by simp, fun u w => by rw [mkCloseWriteMixin_outer outer inner g ho]⟩
      | none =>
        obtain ⟨g, hg⟩ := Option.isSome_iff_exists.mp hc
        change assertCloseWriter inner = some g at hg
        exact ⟨g, by simp [hg],
          fun u w => by rw [mkCloseWriteMixin_inner outer inner g ho hg]⟩
    · cases hf

/-- C2, at the fixtures of `TestCombineOverloading`: outer overloads `ReadFrom`
only, inner has all three capabilities and both policy flags are set. -/
theorem CombineWithConfig_delegates_witness :
    CombineWithConfig connErrR connRWC { UseReaderFrom := true, UseWriterTo := true } =
        Except.ok (Combined.toConn (Combined.withRWC connErrR { Conn := connErrR }
          { Conn := connRWC } { Conn := connRWC })) ∧
      ((∀ f, assertReaderFrom (Combined.toConn (Combined.withRWC connErrR { Conn := connErrR }
          { Conn := connRWC } { Conn := connRWC })) = some f →
        ∃ g, (if (assertReaderFrom connErrR).isSome then assertReaderFrom connErrR
              else assertReaderFrom connRWC) = some g ∧ ∀ r w, f r w = g r w) ∧
      (∀ f, assertWriterTo (Combined.toConn (Combined.withRWC connErrR { Conn := connErrR }
          { Conn := connRWC } { Conn := connRWC })) = some f →
        ∃ g, (if (assertWriterTo connErrR).isSome then assertWriterTo connErrR
              else assertWriterTo connRWC) = some g ∧ ∀ x w, f x w = g x w) ∧
      (∀ f, assertCloseWriter (Combined.toConn (Combined.withRWC connErrR { Conn := connErrR }
          { Conn := connRWC } { Conn := connRWC })) = some f →
        ∃ g, (if (assertCloseWriter connErrR).isSome then assertCloseWriter connErrR
              else assertCloseWriter connRWC) = some g ∧ ∀ u w, f u w = g u w)) :=
  ⟨rfl, CombineWithConfig_delegates connErrR connRWC { UseReaderFrom := true, UseWriterTo := true }
    _ rfl⟩

/-! ## Base operations -/

/-- C3: for every outer, inner (nil included) and cfg, each base operation of the
result of `CombineWithConfig` (Read, Write, Close, LocalAddr, RemoteAddr,
SetDeadline, SetReadDeadline, SetWriteDeadline) is the same operation called on
outer: same results, same panic, same world, whatever shape the result has and
whatever outer and inner implement. -/
theorem CombineWithConfig_base (outer inner : Conn W) (cfg : Config) :
    ∃ res, CombineWithConfig outer inner cfg = Except.ok res ∧
      call res ConnValue.Read = call outer ConnValue.Read ∧
      call res ConnValue.Write = call outer ConnValue.Write ∧
      call res ConnValue.Close = call outer ConnValue.Close ∧
      call res ConnValue.LocalAddr = call outer ConnValue.LocalAddr ∧
      call res ConnValue.RemoteAddr = call outer ConnValue.RemoteAddr ∧
      call res ConnValue.SetDeadline = call outer ConnValue.SetDeadline ∧
      call res ConnValue.SetReadDeadline = call outer ConnValue.SetReadDeadline ∧
      call res ConnValue.SetWriteDeadline = call outer ConnValue.SetWriteDeadline :=
  ⟨_, CombineWithConfig_ok outer inner cfg, rfl, rfl, rfl, rfl, rfl, rfl, rfl, rfl⟩

/-! ## The default configuration -/

/-- C4: at the rows of `testCombinePreservesInnerInterface` whose inner
implements `io.WriterTo`, `Combine` does not return a connection with the flags
of inner, which the claim states and the test expects. Row "WriterTo": the flags
of inner are `writerTo`, the result has flags 0 and does not implement
`io.WriterTo`. Row "ReaderFrom+WriterTo": 3 against 1. Row
"ReaderFrom+WriterTo+CloseWriter": 7 against 5. -/
theorem Combine_WriterTo_test_rows :
    flags connW = writerTo ∧
      Except.map flags (Combine connPlain connW) = Except.ok 0 ∧
      Except.map (fun res => (assertWriterTo res).isSome) (Combine connPlain connW) =
        Except.ok false ∧
      Except.map flags (Combine connPlain connW) ≠ Except.ok (flags connW) ∧
      flags connRW = 3 ∧ Except.map flags (Combine connPlain connRW) = Except.ok 1 ∧
      flags connRWC = 7 ∧ Except.map flags (Combine connPlain connRWC) = Except.ok 5 := by
  refine ⟨rfl, rfl, rfl, ?_, rfl, rfl, rfl, rfl⟩
  intro h
  have h2 : Except.map flags (Combine connPlain connW) = Except.ok 0 := rfl
  rw [h2] at h
  injection h with h
  revert h
  decide

/-- C5: the Linux default configuration enables `io.ReaderFrom` and disables
`io.WriterTo`, and for every outer and inner the connection that `Combine`
returns does not implement `io.WriterTo` and implements `io.ReaderFrom` exactly
when inner does. -/
theorem Combine_default_linux (outer inner : Conn W) :
    DefaultConfig = { UseReaderFrom := true, UseWriterTo := false } ∧
    ∃ res, Combine outer inner = Except.ok res ∧
      assertWriterTo res = none ∧
      ((assertReaderFrom res).isSome = true ↔ (assertReaderFrom inner).isSome = true) := by
  refine ⟨rfl, _, CombineWithConfig_ok outer inner DefaultConfig, ?_⟩
  rcases inner with _ | ⟨_, _, _, _, _, _, _, _, _ | _, _ | _, _ | _⟩ <;>
    simp +decide [assertReaderFrom, assertWriterTo, DefaultConfig]

/-! ## Independence of outer -/

/-- C6: the optional capabilities of the result do not depend on outer: for every
inner, cfg and any two outers, both results have the same flags and implement the
same optional interfaces; and a capability that inner does not implement is not
exposed, whatever outer implements. -/
theorem CombineWithConfig_outer_irrelevant (outer1 outer2 inner : Conn W) (cfg : Config) :
    ∃ res1 res2, CombineWithConfig outer1 inner cfg = Except.ok res1 ∧
      CombineWithConfig outer2 inner cfg = Except.ok res2 ∧
      flags res1 = flags res2 ∧
      (assertReaderFrom res1).isSome = (assertReaderFrom res2).isSome ∧
      (assertWriterTo res1).isSome = (assertWriterTo res2).isSome ∧
      (assertCloseWriter res1).isSome = (assertCloseWriter res2).isSome ∧
      (assertReaderFrom inner = none → assertReaderFrom res1 = none) ∧
      (assertWriterTo inner = none → assertWriterTo res1 = none) ∧
      (assertCloseWriter inner = none → assertCloseWriter res1 = none) := by
  refine ⟨_, _, CombineWithConfig_ok outer1 inner cfg, CombineWithConfig_ok outer2 inner cfg, ?_⟩
  rcases cfg with ⟨_ | _, _ | _⟩ <;>
    rcases inner with _ | ⟨_, _, _, _, _, _, _, _, _ | _, _ | _, _ | _⟩ <;>
    simp +decide [flags, assertReaderFrom, assertWriterTo, assertCloseWriter]

/-- C6, at the fixtures of the two `TestCombinePreservesInnerInterface` tests: an
outer with all three capabilities, a plain outer, and a plain inner. -/
theorem CombineWithConfig_outer_irrelevant_witness :
    ∃ res1 res2,
      CombineWithConfig connRWC connPlain { UseReaderFrom := true, UseWriterTo := true } =
        Except.ok res1 ∧
      CombineWithConfig connPlain connPlain { UseReaderFrom := true, UseWriterTo := true } =
        Except.ok res2 ∧
      flags res1 = flags res2 ∧
      (assertReaderFrom res1).isSome = (assertReaderFrom res2).isSome ∧
      (assertWriterTo res1).isSome = (assertWriterTo res2).isSome ∧
      (assertCloseWriter res1).isSome = (assertCloseWriter res2).isSome ∧
      (assertReaderFrom connPlain = none → assertReaderFrom res1 = none) ∧
      (assertWriterTo connPlain = none → assertWriterTo res1 = none) ∧
      (assertCloseWriter connPlain = none → assertCloseWriter res1 = none) :=
  CombineWithConfig_outer_irrelevant connRWC connPlain connPlain
    { UseReaderFrom := true, UseWriterTo := true }

/-- C7 as stated fails: with both policy flags set, an outer that implements all
three capabilities and a plain inner, the result has flags 0 and does not
implement `io.ReaderFrom`, although outer does. -/
theorem CombineWithConfig_union_counterexample :
    (assertReaderFrom connRWC).isSome = true ∧ flags connRWC = 7 ∧ flags connPlain = 0 ∧
      Except.map flags
        (CombineWithConfig connRWC connPlain { UseReaderFrom := true, UseWriterTo := true }) =
          Except.ok 0 ∧
      Except.map (fun res => (assertReaderFrom res).isSome)
        (CombineWithConfig connRWC connPlain { UseReaderFrom := true, UseWriterTo := true }) =
          Except.ok false :=
  ⟨rfl, rfl, rfl, rfl, rfl⟩

/-- C7, amended: with a policy that enables both `io.ReaderFrom` and `io.WriterTo`,
for every outer and inner the result of `CombineWithConfig` exposes an optional
capability iff inner implements it, so its flags are the flags of inner. -/
theorem CombineWithConfig_all_enabled (outer inner : Conn W) (cfg : Config)
    (hR : cfg.UseReaderFrom = true) (hW : cfg.UseWriterTo = true) :
    ∃ res, CombineWithConfig outer inner cfg = Except.ok res ∧
      (assertReaderFrom res).isSome = (assertReaderFrom inner).isSome ∧
      (assertWriterTo res).isSome = (assertWriterTo inner).isSome ∧
      (assertCloseWriter res).isSome = (assertCloseWriter inner).isSome ∧
      flags res = flags inner := by
  refine ⟨_, CombineWithConfig_ok outer inner cfg, ?_⟩
  rcases cfg with ⟨_ | _, _ | _⟩ <;> simp at hR hW
  rcases inner with _ | ⟨_, _, _, _, _, _, _, _, _ | _, _ | _, _ | _⟩ <;>
    simp +decide [flags, assertReaderFrom, assertWriterTo, assertCloseWriter]

/-- C7 amended, at an outer with all three capabilities and an inner with
`io.ReaderFrom` and `io.WriterTo`. -/
theorem CombineWithConfig_all_enabled_witness :
    ({ UseReaderFrom := true, UseWriterTo := true } : Config).UseReaderFrom = true ∧
    ({ UseReaderFrom := true, UseWriterTo := true } : Config).UseWriterTo = true ∧
    ∃ res, CombineWithConfig connErrRWC connRW { UseReaderFrom := true, UseWriterTo := true } =
        Except.ok res ∧
      (assertReaderFrom res).isSome = (assertReaderFrom connRW).isSome ∧
      (assertWriterTo res).isSome = (assertWriterTo connRW).isSome ∧
      (assertCloseWriter res).isSome = (assertCloseWriter connRW).isSome ∧
      flags res = flags connRW :=
  ⟨rfl, rfl, CombineWithConfig_all_enabled connErrRWC connRW
    { UseReaderFrom := true, UseWriterTo := true } rfl rfl⟩

/-! ## A nil inner -/

/-- C8: for every outer and cfg, `CombineWithConfig(outer, nil, cfg)` returns
without panicking a connection that implements none of `io.ReaderFrom`,
`io.WriterTo` and `CloseWrite`, and whose base operations are those of outer. -/
theorem CombineWithConfig_nil_inner (outer : Conn W) (cfg : Config) :
    ∃ res, CombineWithConfig outer none cfg = Except.ok res ∧
      assertReaderFrom res = none ∧ assertWriterTo res = none ∧ assertCloseWriter res = none ∧
      flags res = 0 ∧
      call res ConnValue.Read = call outer ConnValue.Read ∧
      call res ConnValue.Write = call outer ConnValue.Write ∧
      call res ConnValue.Close = call outer ConnValue.Close ∧
      call res ConnValue.LocalAddr = call outer ConnValue.LocalAddr ∧
      call res ConnValue.RemoteAddr = call outer ConnValue.RemoteAddr ∧
      call res ConnValue.SetDeadline = call outer ConnValue.SetDeadline ∧
      call res ConnValue.SetReadDeadline = call outer ConnValue.SetReadDeadline ∧
      call res ConnValue.SetWriteDeadline = call outer ConnValue.SetWriteDeadline := by
  refine ⟨_, CombineWithConfig_ok outer none cfg, ?_, ?_, ?_, ?_,
    rfl, rfl, rfl, rfl, rfl, rfl, rfl, rfl⟩ <;>
    simp [flags, assertReaderFrom, assertWriterTo, assertCloseWriter]

/-! ## Source selection per capability -/

/-- C9: when outer implements `ReadFrom` but not `WriteTo`, inner implements both
and cfg enables both, the result of `CombineWithConfig` exposes both; its
`ReadFrom` returns what the `ReadFrom` of outer returns and its `WriteTo` returns
what the `WriteTo` of inner returns. -/
theorem CombineWithConfig_mixed_sources (outer inner : Conn W) (cfg : Config)
    (fo fi : Method W Reader (Int × GoError)) (gi : Method W Writer (Int × GoError))
    (hoR : assertReaderFrom outer = some fo) (hoW : assertWriterTo outer = none)
    (hiR : assertReaderFrom inner = some fi) (hiW : assertWriterTo inner = some gi)
    (hR : cfg.UseReaderFrom = true) (hW : cfg.UseWriterTo = true) :
    ∃ res f g, CombineWithConfig outer inner cfg = Except.ok res ∧
      assertReaderFrom res = some f ∧ assertWriterTo res = some g ∧
      (∀ r w, f r w = fo r w) ∧ (∀ x w, g x w = gi x w) := by
  refine ⟨_, (mkReadFromMixin outer inner).ReadFrom, (mkWriteToMixin outer inner).WriteTo,
    CombineWithConfig_ok outer inner cfg, ?_, ?_, ?_, ?_⟩
  · show (if ((assertReaderFrom inner).isSome && cfg.UseReaderFrom) = true then
        some (mkReadFromMixin outer inner).ReadFrom else none) = _
    rw [if_pos (by simp [hiR, hR])]
  · show (if ((assertWriterTo inner).isSome && cfg.UseWriterTo) = true then
        some (mkWriteToMixin outer inner).WriteTo else none) = _
    rw [if_pos (by simp [hiW, hW])]
  · intro r w
    rw [mkReadFromMixin_outer outer inner fo hoR]
  · intro x w
    rw [mkWriteToMixin_inner outer inner gi hoW hiW]

/-- C9, at the fixtures: outer overloads `ReadFrom` with the one returning 42 and
`testErr`, inner has a no-op `ReadFrom` and `WriteTo`. -/
theorem CombineWithConfig_mixed_sources_witness :
    assertReaderFrom connErrR = some errReaderFrom ∧ assertWriterTo connErrR = none ∧
    assertReaderFrom connRW = some nopReaderFrom ∧ assertWriterTo connRW = some nopWriteTo ∧
    ∃ res f g,
      CombineWithConfig connErrR connRW { UseReaderFrom := true, UseWriterTo := true } =
        Except.ok res ∧
      assertReaderFrom res = some f ∧ assertWriterTo res = some g ∧
      (∀ r w, f r w = errReaderFrom r w) ∧ (∀ x w, g x w = nopWriteTo x w) :=
  ⟨rfl, rfl, rfl, rfl, CombineWithConfig_mixed_sources connErrR connRW
    { UseReaderFrom := true, UseWriterTo := true } errReaderFrom nopReaderFrom nopWriteTo
    rfl rfl rfl rfl rfl rfl⟩

/-! ## The switch is exhaustive -/

/-- C10: for every outer, inner (nil included) and cfg, the policy-masked bitmask
is one of the eight values of the cases of the switch, all below 8; the switch
takes its `default` case exactly on the bitmasks from 8 on, so `CombineWithConfig`
never panics with "unreachable" and always returns a connection. -/
theorem CombineWithConfig_never_unreachable (outer inner : Conn W) (cfg : Config) :
    maskedFlags inner cfg ∈
        [0, readerFrom, writerTo, closeWriter, readerFrom ||| writerTo,
          readerFrom ||| closeWriter, writerTo ||| closeWriter,
          readerFrom ||| writerTo ||| closeWriter] ∧
      maskedFlags inner cfg < 8 ∧
      (∀ f : Nat, (selectShape outer inner f).isSome = decide (f < 8)) ∧
      (selectShape outer inner (maskedFlags inner cfg)).isSome = true ∧
      (∀ msg, CombineWithConfig outer inner cfg ≠ Except.error msg) ∧
      ∃ res, CombineWithConfig outer inner cfg = Except.ok res := by
  have hsel : ∀ f : Nat, (selectShape outer inner f).isSome = decide (f < 8) := by
    intro f
    by_cases hf : f < 8
    · interval_cases f <;> simp +decide [selectShape, readerFrom, writerTo, closeWriter]
    · have h8 : 8 ≤ f := Nat.le_of_not_lt hf
      have e1 : readerFrom = 1 := rfl
      have e2 : writerTo = 2 := rfl
      have e3 : closeWriter = 4 := rfl
      have e4 : readerFrom ||| writerTo = 3 := rfl
      have e5 : readerFrom ||| closeWriter = 5 := rfl
      have e6 : writerTo ||| closeWriter = 6 := rfl
      have e7 : readerFrom ||| writerTo ||| closeWriter = 7 := rfl
      have n0 : f ≠ 0 := by omega
      have n1 : f ≠ 1 := by omega
      have n2 : f ≠ 2 := by omega
      have n3 : f ≠ 3 := by omega
      have n4 : f ≠ 4 := by omega
      have n5 : f ≠ 5 := by omega
      have n6 : f ≠ 6 := by omega
      have n7 : f ≠ 7 := by omega
      simp [selectShape, e1, e2, e3, e4, e5, e6, e7, n0, n1, n2, n3, n4, n5, n6, n7, hf]
  have hmask : maskedFlags inner cfg ∈
        [0, readerFrom, writerTo, closeWriter, readerFrom ||| writerTo,
          readerFrom ||| closeWriter, writerTo ||| closeWriter,
          readerFrom ||| writerTo ||| closeWriter] ∧ maskedFlags inner cfg < 8 := by
    rcases cfg with ⟨_ | _, _ | _⟩ <;>
      rcases inner with _ | ⟨_, _, _, _, _, _, _, _, _ | _, _ | _, _ | _⟩ <;>
      simp +decide [maskedFlags, flags, bitClear, readerFrom, writerTo, closeWriter,
        assertReaderFrom, assertWriterTo, assertCloseWriter]
  refine ⟨hmask.1, hmask.2, hsel, ?_, ?_, _, CombineWithConfig_ok outer inner cfg⟩
  · rw [hsel]
    exact decide_eq_true hmask.2
  · intro msg h
    rw [CombineWithConfig_ok] at h
    cases h

/-! ## The encoding of the capability set -/

/-- C16: `flags` is an exact, injective encoding: for every connection (nil
included) the flags are below 8; bit 0 (value 1) is set iff the connection
implements `io.ReaderFrom`, bit 1 (value 2) iff `io.WriterTo`, bit 2 (value 4) iff
`CloseWrite`; two connections have equal flags iff they implement the same
subset of the three; and the flags of the nil connection are 0. -/
theorem flags_encoding (conn conn2 : Conn W) :
    flags conn < 8 ∧
      readerFrom = 1 ∧ writerTo = 2 ∧ closeWriter = 4 ∧
      (flags conn &&& readerFrom ≠ 0 ↔ (assertReaderFrom conn).isSome = true) ∧
      (flags conn &&& writerTo ≠ 0 ↔ (assertWriterTo conn).isSome = true) ∧
      (flags conn &&& closeWriter ≠ 0 ↔ (assertCloseWriter conn).isSome = true) ∧
      (Nat.testBit (flags conn) 0 = (assertReaderFrom conn).isSome) ∧
      (Nat.testBit (flags conn) 1 = (assertWriterTo conn).isSome) ∧
      (Nat.testBit (flags conn) 2 = (assertCloseWriter conn).isSome) ∧
      (flags conn = flags conn2 ↔
        ((assertReaderFrom conn).isSome = (assertReaderFrom conn2).isSome ∧
          (assertWriterTo conn).isSome = (assertWriterTo conn2).isSome ∧
          (assertCloseWriter conn).isSome = (assertCloseWriter conn2).isSome)) ∧
      flags (none : Conn W) = 0 := by
  rcases conn with _ | ⟨_, _, _, _, _, _, _, _, _ | _, _ | _, _ | _⟩ <;>
    rcases conn2 with _ | ⟨_, _, _, _, _, _, _, _, _ | _, _ | _, _ | _⟩ <;>
    simp +decide [flags, readerFrom, writerTo, closeWriter, assertReaderFrom, assertWriterTo,
      assertCloseWriter]

/-! ## Re-combining, bounds and monotonicity -/

/-- C14: re-combining is idempotent on the capability set: for every outer,
outer2, inner and cfg, combining outer2 with the result of
`CombineWithConfig(outer, inner, cfg)` under the same cfg returns a connection
with the same flags, hence the same optional interfaces, as that result. -/
theorem CombineWithConfig_recombine (outer outer2 inner : Conn W) (cfg : Config) :
    ∃ res res2, CombineWithConfig outer inner cfg = Except.ok res ∧
      CombineWithConfig outer2 res cfg = Except.ok res2 ∧
      flags res2 = flags res ∧
      (assertReaderFrom res2).isSome = (assertReaderFrom res).isSome ∧
      (assertWriterTo res2).isSome = (assertWriterTo res).isSome ∧
      (assertCloseWriter res2).isSome = (assertCloseWriter res).isSome := by
  refine ⟨_, _, CombineWithConfig_ok outer inner cfg, CombineWithConfig_ok outer2 _ cfg, ?_⟩
  rcases cfg with ⟨_ | _, _ | _⟩ <;>
    rcases inner with _ | ⟨_, _, _, _, _, _, _, _, _ | _, _ | _, _ | _⟩ <;>
    simp +decide [flags, assertReaderFrom, assertWriterTo, assertCloseWriter]

/-- C15: the exposed capability set is bounded by inner and monotone in the
policy: the flags of the result are a bitwise subset of the flags of inner, and
when cfg2 enables every flag that cfg1 enables, every capability exposed under
cfg1 is exposed under cfg2 (the flags under cfg1 are a bitwise subset of those
under cfg2). -/
theorem CombineWithConfig_bounded_monotone (outer inner : Conn W) (cfg1 cfg2 : Config)
    (hR : cfg1.UseReaderFrom = true → cfg2.UseReaderFrom = true)
    (hW : cfg1.UseWriterTo = true → cfg2.UseWriterTo = true) :
    ∃ res1 res2, CombineWithConfig outer inner cfg1 = Except.ok res1 ∧
      CombineWithConfig outer inner cfg2 = Except.ok res2 ∧
      flags res1 &&& flags inner = flags res1 ∧
      flags res2 &&& flags inner = flags res2 ∧
      flags res1 &&& flags res2 = flags res1 ∧
      ((assertReaderFrom res1).isSome = true → (assertReaderFrom res2).isSome = true) ∧
      ((assertWriterTo res1).isSome = true → (assertWriterTo res2).isSome = true) ∧
      ((assertCloseWriter res1).isSome = true → (assertCloseWriter res2).isSome = true) := by
  refine ⟨_, _, CombineWithConfig_ok outer inner cfg1, CombineWithConfig_ok outer inner cfg2, ?_⟩
  rcases cfg1 with ⟨_ | _, _ | _⟩ <;> rcases cfg2 with ⟨_ | _, _ | _⟩ <;> simp at hR hW <;>
    rcases inner with _ | ⟨_, _, _, _, _, _, _, _, _ | _, _ | _, _ | _⟩ <;>
    simp +decide [flags, readerFrom, writerTo, closeWriter, assertReaderFrom, assertWriterTo,
      assertCloseWriter]

/-- C15, from the Linux default policy to the policy that enables both
capabilities, with an inner that implements `io.ReaderFrom` and `io.WriterTo`. -/
theorem CombineWithConfig_bounded_monotone_witness :
    (DefaultConfig.UseReaderFrom = true →
        ({ UseReaderFrom := true, UseWriterTo := true } : Config).UseReaderFrom = true) ∧
    (DefaultConfig.UseWriterTo = true →
        ({ UseReaderFrom := true, UseWriterTo := true } : Config).UseWriterTo = true) ∧
    ∃ res1 res2, CombineWithConfig connErrR connRW DefaultConfig = Except.ok res1 ∧
      CombineWithConfig connErrR connRW { UseReaderFrom := true, UseWriterTo := true } =
        Except.ok res2 ∧
      flags res1 &&& flags connRW = flags res1 ∧
      flags res2 &&& flags connRW = flags res2 ∧
      flags res1 &&& flags res2 = flags res1 ∧
      ((assertReaderFrom res1).isSome = true → (assertReaderFrom res2).isSome = true) ∧
      ((assertWriterTo res1).isSome = true → (assertWriterTo res2).isSome = true) ∧
      ((assertCloseWriter res1).isSome = true → (assertCloseWriter res2).isSome = true) :=
  ⟨fun _ => rfl, fun _ => rfl,
    CombineWithConfig_bounded_monotone connErrR connRW DefaultConfig
      { UseReaderFrom := true, UseWriterTo := true } (fun _ => rfl) (fun _ => rfl)⟩

/-! ## The struct behind the result -/

/-- The optional interfaces of the converted struct are the methods of its
embedded mixins. -/
theorem toConn_assert (s : Combined W) :
    assertReaderFrom s.toConn = s.ReaderFrom.map readFromMixin.ReadFrom ∧
      assertWriterTo s.toConn = s.WriterTo.map writeToMixin.WriteTo ∧
      assertCloseWriter s.toConn = s.CloseWriter.map closeWriteMixin.CloseWrite := by
  cases s <;> exact ⟨rfl, rfl, rfl⟩

/-- The embedded `io.ReaderFrom` of the struct that the switch picks. -/
theorem selectShape_ReaderFrom (outer inner : Conn W) (cfg : Config) :
    (selectShape outer inner (maskedFlags inner cfg)).map Combined.ReaderFrom =
      some (if (assertReaderFrom inner).isSome && cfg.UseReaderFrom then
        some (mkReadFromMixin outer inner) else none) := by
  rcases cfg with ⟨_ | _, _ | _⟩ <;>
    rcases inner with _ | ⟨_, _, _, _, _, _, _, _, _ | _, _ | _, _ | _⟩ <;>
    simp +decide [selectShape, maskedFlags, flags, bitClear, readerFrom, writerTo, closeWriter,
      assertReaderFrom, assertWriterTo, assertCloseWriter, Combined.ReaderFrom]

/-- The embedded `io.WriterTo` of the struct that the switch picks. -/
theorem selectShape_WriterTo (outer inner : Conn W) (cfg : Config) :
    (selectShape outer inner (maskedFlags inner cfg)).map Combined.WriterTo =
      some (if (assertWriterTo inner).isSome && cfg.UseWriterTo then
        some (mkWriteToMixin outer inner) else none) := by
  rcases cfg with ⟨_ | _, _ | _⟩ <;>
    rcases inner with _ | ⟨_, _, _, _, _, _, _, _, _ | _, _ | _, _ | _⟩ <;>
    simp +decide [selectShape, maskedFlags, flags, bitClear, readerFrom, writerTo, closeWriter,
      assertReaderFrom, assertWriterTo, assertCloseWriter, Combined.WriterTo]

/-- The embedded `_closeWriter` of the struct that the switch picks. -/
theorem selectShape_CloseWriter (outer inner : Conn W) (cfg : Config) :
    (selectShape outer inner (maskedFlags inner cfg)).map Combined.CloseWriter =
      some (if (assertCloseWriter inner).isSome then
        some (mkCloseWriteMixin outer inner) else none) := by
  rcases cfg with ⟨_ | _, _ | _⟩ <;>
    rcases inner with _ | ⟨_, _, _, _, _, _, _, _, _ | _, _ | _, _ | _⟩ <;>
    simp +decide [selectShape, maskedFlags, flags, bitClear, readerFrom, writerTo, closeWriter,
      assertReaderFrom, assertWriterTo, assertCloseWriter, Combined.CloseWriter]

/-- The struct that the switch picks, field by field: it is converted to the
connection that `CombineWithConfig` returns, and it has an embedded mixin
exactly for the capabilities in the masked flags of `inner`, each built by the
closure for that capability. -/
theorem selectShape_fields (outer inner : Conn W) (cfg : Config) :
    ∃ s, selectShape outer inner (maskedFlags inner cfg) = some s ∧
      CombineWithConfig outer inner cfg = Except.ok s.toConn ∧
      s.ReaderFrom =
        (if (assertReaderFrom inner).isSome && cfg.UseReaderFrom then
          some (mkReadFromMixin outer inner) else none) ∧
      s.WriterTo =
        (if (assertWriterTo inner).isSome && cfg.UseWriterTo then
          some (mkWriteToMixin outer inner) else none) ∧
      s.CloseWriter =
        (if (assertCloseWriter inner).isSome then
          some (mkCloseWriteMixin outer inner) else none) := by
  have hR := selectShape_ReaderFrom outer inner cfg
  have hW := selectShape_WriterTo outer inner cfg
  have hC := selectShape_CloseWriter outer inner cfg
  cases hs : selectShape outer inner (maskedFlags inner cfg) with
  | none => rw [hs] at hR; cases hR
  | some s =>
    rw [hs] at hR hW hC
    refine ⟨s, rfl, ?_, Option.some.inj hR, Option.some.inj hW, Option.some.inj hC⟩
    simp only [CombineWithConfig, hs]

/-- The connection that the closure for `io.ReaderFrom` wraps. -/
theorem mkReadFromMixin_Conn (outer inner : Conn W) :
    (mkReadFromMixin outer inner).Conn =
      if (assertReaderFrom outer).isSome then outer else inner := by
  unfold mkReadFromMixin
  split <;> rfl

/-- The connection that the closure for `io.WriterTo` wraps. -/
theorem mkWriteToMixin_Conn (outer inner : Conn W) :
    (mkWriteToMixin outer inner).Conn =
      if (assertWriterTo outer).isSome then outer else inner := by
  unfold mkWriteToMixin
  split <;> rfl

/-- The connection that the closure for `_closeWriter` wraps. -/
theorem mkCloseWriteMixin_Conn (outer inner : Conn W) :
    (mkCloseWriteMixin outer inner).Conn =
      if (assertCloseWriter outer).isSome then outer else inner := by
  unfold mkCloseWriteMixin
  split <;> rfl

/-- A connection on which the assertion to `io.ReaderFrom` succeeds is not nil. -/
theorem isSome_of_assertReaderFrom (c : Conn W) (g : Method W Reader (Int × GoError))
    (h : assertReaderFrom c = some g) : c.isSome = true := by
  cases c with
  | none => cases h
  | some v => rfl

/-- A connection on which the assertion to `io.WriterTo` succeeds is not nil. -/
theorem isSome_of_assertWriterTo (c : Conn W) (g : Method W Writer (Int × GoError))
    (h : assertWriterTo c = some g) : c.isSome = true := by
  cases c with
  | none => cases h
  | some v => rfl

/-- A connection on which the assertion to `_closeWriter` succeeds is not nil. -/
theorem isSome_of_assertCloseWriter (c : Conn W) (g : Method W Unit GoError)
    (h : assertCloseWriter c = some g) : c.isSome = true := by
  cases c with
  | none => cases h
  | some v => rfl

/-! ## The forced type assertions of the mixins -/

/-- C13: for every outer, inner and cfg, the struct that `CombineWithConfig`
returns has a mixin exactly for each capability it exposes; the connection that
mixin wraps is outer when outer implements the capability and inner otherwise,
it is not nil and it implements the capability, so the forced type assertion in
`ReadFrom`, `WriteTo` and `CloseWrite` succeeds and the mixin method is the
implementation of the wrapped connection. -/
theorem CombineWithConfig_assertions_hold (outer inner : Conn W) (cfg : Config) :
    ∃ s, selectShape outer inner (maskedFlags inner cfg) = some s ∧
      CombineWithConfig outer inner cfg = Except.ok s.toConn ∧
      assertReaderFrom s.toConn = s.ReaderFrom.map readFromMixin.ReadFrom ∧
      assertWriterTo s.toConn = s.WriterTo.map writeToMixin.WriteTo ∧
      assertCloseWriter s.toConn = s.CloseWriter.map closeWriteMixin.CloseWrite ∧
      (∀ rf, s.ReaderFrom = some rf →
        rf.Conn = (if (assertReaderFrom outer).isSome then outer else inner) ∧
        rf.Conn.isSome = true ∧
        ∃ g, assertReaderFrom rf.Conn = some g ∧ ∀ r w, rf.ReadFrom r w = g r w) ∧
      (∀ wt, s.WriterTo = some wt →
        wt.Conn = (if (assertWriterTo outer).isSome then outer else inner) ∧
        wt.Conn.isSome = true ∧
        ∃ g, assertWriterTo wt.Conn = some g ∧ ∀ x w, wt.WriteTo x w = g x w) ∧
      (∀ cw, s.CloseWriter = some cw →
        cw.Conn = (if (assertCloseWriter outer).isSome then outer else inner) ∧
        cw.Conn.isSome = true ∧
        ∃ g, assertCloseWriter cw.Conn = some g ∧ ∀ u w, cw.CloseWrite u w = g u w) := by
  obtain ⟨s, hs, hc, hR, hW, hC⟩ := selectShape_fields outer inner cfg
  obtain ⟨tR, tW, tC⟩ := toConn_assert s
  refine ⟨s, hs, hc, tR, tW, tC, ?_, ?_, ?_⟩
  · intro rf hrf
    rw [hR] at hrf
    split at hrf
    · rename_i hcond
      simp only [Bool.and_eq_true] at hcond
      cases hrf
      obtain ⟨gi, hgi⟩ := Option.isSome_iff_exists.mp hcond.1
      have hex : ∃ g, assertReaderFrom (mkReadFromMixin outer inner).Conn = some g := by
        rw [mkReadFromMixin_Conn]
        cases ho : assertReaderFrom outer with
        | some g => exact ⟨g, by simp [ho]⟩
        | none => exact ⟨gi, by simp [hgi]⟩
      obtain ⟨g, hg⟩ := hex
      refine ⟨mkReadFromMixin_Conn outer inner, isSome_of_assertReaderFrom _ g hg, g, hg, ?_⟩
      intro r w
      simp [readFromMixin.ReadFrom, hg]
    · cases hrf
  · intro wt hwt
    rw [hW] at hwt
    split at hwt
    · rename_i hcond
      simp only [Bool.and_eq_true] at hcond
      cases hwt
      obtain ⟨gi, hgi⟩ := Option.isSome_iff_exists.mp hcond.1
      have hex : ∃ g, assertWriterTo (mkWriteToMixin outer inner).Conn = some g := by
        rw [mkWriteToMixin_Conn]
        cases ho : assertWriterTo outer with
        | some g => exact ⟨g, by simp [ho]⟩
        | none => exact ⟨gi, by simp [hgi]⟩
      obtain ⟨g, hg⟩ := hex
      refine ⟨mkWriteToMixin_Conn outer inner, isSome_of_assertWriterTo _ g hg, g, hg, ?_⟩
      intro x w
      simp [writeToMixin.WriteTo, hg]
    · cases hwt
  · intro cw hcw
    rw [hC] at hcw
    split at hcw
    · rename_i hcond
      cases hcw
      obtain ⟨gi, hgi⟩ := Option.isSome_iff_exists.mp hcond
      have hex : ∃ g, assertCloseWriter (mkCloseWriteMixin outer inner).Conn = some g := by
        rw [mkCloseWriteMixin_Conn]
        cases ho : assertCloseWriter outer with
        | some g => exact ⟨g, by simp [ho]⟩
        | none => exact ⟨gi, by simp [hgi]⟩
      obtain ⟨g, hg⟩ := hex
      refine ⟨mkCloseWriteMixin_Conn outer inner, isSome_of_assertCloseWriter _ g hg, g, hg, ?_⟩
      intro u w
      simp [closeWriteMixin.CloseWrite, hg]
    · cases hcw

/-- C13, at the fixtures: outer overloads `ReadFrom`, inner has a no-op `ReadFrom`
and `WriteTo`, and both policy flags are set. -/
theorem CombineWithConfig_assertions_hold_witness :
    ∃ s, selectShape connErrR connRW
          (maskedFlags connRW { UseReaderFrom := true, UseWriterTo := true }) = some s ∧
      CombineWithConfig connErrR connRW { UseReaderFrom := true, UseWriterTo := true } =
        Except.ok s.toConn ∧
      assertReaderFrom s.toConn = s.ReaderFrom.map readFromMixin.ReadFrom ∧
      assertWriterTo s.toConn = s.WriterTo.map writeToMixin.WriteTo ∧
      assertCloseWriter s.toConn = s.CloseWriter.map closeWriteMixin.CloseWrite ∧
      (∀ rf, s.ReaderFrom = some rf →
        rf.Conn = (if (assertReaderFrom connErrR).isSome then connErrR else connRW) ∧
        rf.Conn.isSome = true ∧
        ∃ g, assertReaderFrom rf.Conn = some g ∧ ∀ r w, rf.ReadFrom r w = g r w) ∧
      (∀ wt, s.WriterTo = some wt →
        wt.Conn = (if (assertWriterTo connErrR).isSome then connErrR else connRW) ∧
        wt.Conn.isSome = true ∧
        ∃ g, assertWriterTo wt.Conn = some g ∧ ∀ x w, wt.WriteTo x w = g x w) ∧
      (∀ cw, s.CloseWriter = some cw →
        cw.Conn = (if (assertCloseWriter connErrR).isSome then connErrR else connRW) ∧
        cw.Conn.isSome = true ∧
        ∃ g, assertCloseWriter cw.Conn = some g ∧ ∀ u w, cw.CloseWrite u w = g u w) :=
  CombineWithConfig_assertions_hold connErrR connRW { UseReaderFrom := true, UseWriterTo := true }

/-! ## The eight capability sets -/

/-- C11: every subset of the three capabilities is realizable: for each choice
of the three there are an outer, an inner and a cfg whose combination exposes
exactly that subset; and whether a capability is exposed is decided by the
support of inner for that capability and by its own policy flag alone: two
combinations that agree on these agree on the exposure of that capability,
whatever the outers, the other capabilities of the inners and the other flags. -/
theorem CombineWithConfig_subsets_independent :
    (∀ r w c : Bool, ∃ (outer inner : Conn W) (cfg : Config) (res : Conn W),
      CombineWithConfig outer inner cfg = Except.ok res ∧
        (assertReaderFrom res).isSome = r ∧ (assertWriterTo res).isSome = w ∧
        (assertCloseWriter res).isSome = c ∧
        flags res = ((if r then readerFrom else 0) ||| (if w then writerTo else 0) |||
          (if c then closeWriter else 0))) ∧
    (∀ (outer1 outer2 inner1 inner2 : Conn W) (cfg1 cfg2 : Config),
      ∃ res1 res2, CombineWithConfig outer1 inner1 cfg1 = Except.ok res1 ∧
        CombineWithConfig outer2 inner2 cfg2 = Except.ok res2 ∧
        ((assertReaderFrom inner1).isSome = (assertReaderFrom inner2).isSome →
          cfg1.UseReaderFrom = cfg2.UseReaderFrom →
          (assertReaderFrom res1).isSome = (assertReaderFrom res2).isSome) ∧
        ((assertWriterTo inner1).isSome = (assertWriterTo inner2).isSome →
          cfg1.UseWriterTo = cfg2.UseWriterTo →
          (assertWriterTo res1).isSome = (assertWriterTo res2).isSome) ∧
        ((assertCloseWriter inner1).isSome = (assertCloseWriter inner2).isSome →
          (assertCloseWriter res1).isSome = (assertCloseWriter res2).isSome)) := by
  constructor
  · intro r w c
    refine ⟨capConn false false false, capConn r w c,
      { UseReaderFrom := true, UseWriterTo := true }, _, CombineWithConfig_ok _ _ _, ?_⟩
    cases r <;> cases w <;> cases c <;>
      simp +decide [capConn, flags, readerFrom, writerTo, closeWriter, assertReaderFrom,
        assertWriterTo, assertCloseWriter]
  · intro outer1 outer2 inner1 inner2 cfg1 cfg2
    refine ⟨_, _, CombineWithConfig_ok outer1 inner1 cfg1, CombineWithConfig_ok outer2 inner2 cfg2,
      ?_, ?_, ?_⟩
    · intro hi hc
      show (if ((assertReaderFrom inner1).isSome && cfg1.UseReaderFrom) = true then
          some (mkReadFromMixin outer1 inner1).ReadFrom else none).isSome =
        (if ((assertReaderFrom inner2).isSome && cfg2.UseReaderFrom) = true then
          some (mkReadFromMixin outer2 inner2).ReadFrom else none).isSome
      rw [hi, hc]
      split <;> rfl
    · intro hi hc
      show (if ((assertWriterTo inner1).isSome && cfg1.UseWriterTo) = true then
          some (mkWriteToMixin outer1 inner1).WriteTo else none).isSome =
        (if ((assertWriterTo inner2).isSome && cfg2.UseWriterTo) = true then
          some (mkWriteToMixin outer2 inner2).WriteTo else none).isSome
      rw [hi, hc]
      split <;> rfl
    · intro hi
      show (if (assertCloseWriter inner1).isSome = true then
          some (mkCloseWriteMixin outer1 inner1).CloseWrite else none).isSome =
        (if (assertCloseWriter inner2).isSome = true then
          some (mkCloseWriteMixin outer2 inner2).CloseWrite else none).isSome
      rw [hi]
      split <;> rfl

/-- C11, at the fixtures: the inners `connRW` and `connErrR` both implement
`io.ReaderFrom` and differ on `io.WriterTo`, the outers differ, and the two
policies agree on `UseReaderFrom` and differ on `UseWriterTo`; both results
expose `io.ReaderFrom` alike. -/
theorem CombineWithConfig_subsets_independent_witness :
    (assertReaderFrom connRW).isSome = (assertReaderFrom connErrR).isSome ∧
    ({ UseReaderFrom := true, UseWriterTo := true } : Config).UseReaderFrom =
      DefaultConfig.UseReaderFrom ∧
    ∃ res1 res2,
      CombineWithConfig connPlain connRW { UseReaderFrom := true, UseWriterTo := true } =
        Except.ok res1 ∧
      CombineWithConfig connRWC connErrR DefaultConfig = Except.ok res2 ∧
      (assertReaderFrom res1).isSome = (assertReaderFrom res2).isSome :=
  ⟨rfl, rfl,
    match (@CombineWithConfig_subsets_independent Nat).2 connPlain connRWC connRW connErrR
      { UseReaderFrom := true, UseWriterTo := true } DefaultConfig with
    | ⟨res1, res2, h1, h2, hR, _, _⟩ => ⟨res1, res2, h1, h2, hR rfl rfl⟩⟩

end connfu
